import Mathlib

/-!
Shallow embedding of the kintone Go client (`app.go`) for verification of its
natural-language specification.  Pure data flow is translated directly; the
HTTP transport and the stdlib JSON parser are modelled by explicit inputs
(an oracle value per network interaction, and JSON values carried in the
modelled responses).  Machine durations are nanosecond counts (`Nat`),
matching Go's `time.Duration` on the values used here.
-/

namespace Kintone

/-- JSON values, as delivered by the wire.  An HTTP response body that is not
well-formed JSON is modelled as `Option.none` at the use sites. -/
inductive Json where
  | str (s : String)
  | num (n : Int)
  | bool (b : Bool)
  | null
  | arr (elems : List Json)
  | obj (fields : List (String × Json))

/-- Field lookup in a JSON object.  Go's `encoding/json` assigns every
occurrence of a key in order, so the last occurrence wins. -/
def lookupLast (fields : List (String × Json)) (key : String) : Option Json :=
  match fields with
  | [] => none
  | (k, v) :: rest =>
    match lookupLast rest key with
    | some w => some w
    | none => if k = key then some v else none

/-- The library's error taxonomy: `ErrTimeout`, `ErrInvalidResponse`,
`ErrTooMany`, server-side `AppError`, and pass-through transport or
request-construction errors (`other`). -/
inductive KError where
  | timeout
  | invalidResponse
  | tooMany
  | appError (status : String) (statusCode : Nat)
      (message : String) (id : String) (code : String)
  | other (s : String)
deriving DecidableEq

/-- Server-side error data, mirroring Go's `AppError` struct
(`HttpStatus`, `HttpStatusCode`, `Message`, `Id`, `Code`). -/
structure AppError where
  HttpStatus : String
  HttpStatusCode : Nat
  Message : String
  Id : String
  Code : String
deriving DecidableEq

/-- Lift an `AppError` record into the error taxonomy. -/
def AppError.toKError (e : AppError) : KError :=
  .appError e.HttpStatus e.HttpStatusCode e.Message e.Id e.Code

/-- A completed HTTP response as seen by the classifier: status line, numeric
status code, declared `Content-Type`, and the body.  The body is carried both
ways it is consumed downstream: `body` is the result of parsing the raw bytes
as JSON (`none` when the bytes are not well-formed JSON); reads of the raw
bytes on the success path return `raw`. -/
structure HttpResponse where
  status : String
  statusCode : Nat
  contentType : String
  body : Option Json
  raw : String

/-- ASCII whitespace, for trimming around a media type. -/
def isSpaceChar (c : Char) : Bool :=
  c = ' ' || c = '\t' || c = '\n' || c = '\r'

/-- ASCII lowercasing of one character. -/
def asciiLowerChar (c : Char) : Char :=
  if 65 ≤ c.toNat ∧ c.toNat ≤ 90 then Char.ofNat (c.toNat + 32) else c

/-- Model of Go's `mime.ParseMediaType` as used by `isJSON`: the media type is
the part before the first parameter separator, trimmed and lowercased; an
empty media type is a parse error (`none`). -/
def parseMediaType (v : String) : Option String :=
  let cs := v.toList.takeWhile (fun c => c ≠ ';')
  let cs := ((cs.dropWhile isSpaceChar).reverse.dropWhile isSpaceChar).reverse
  let cs := cs.map asciiLowerChar
  if cs.isEmpty then none else some (String.mk cs)

/-- Translation of `isJSON` (app.go:161): the declared content type parses to
media type `application/json`. -/
def isJSON (contentType : String) : Bool :=
  match parseMediaType contentType with
  | none => false
  | some m => m = "application/json"

/-- Model of `json.Unmarshal(body, &ae)` for a zero-valued `AppError`:
best-effort decode.  A body that is not a JSON object leaves every field at
its zero value; in an object, each of the keys `message`, `id`, `code` sets
its field when the value is a string. -/
def unmarshalAppError (body : Option Json) : AppError :=
  match body with
  | some (.obj fields) =>
    let getStr := fun (k : String) =>
      match lookupLast fields k with
      | some (.str s) => s
      | _ => ""
    { HttpStatus := "", HttpStatusCode := 0,
      Message := getStr "message", Id := getStr "id", Code := getStr "code" }
  | _ => { HttpStatus := "", HttpStatusCode := 0, Message := "", Id := "", Code := "" }

/-- Translation of `parseResponse` (app.go:169): read the body; on a non-200
status return an `AppError` built from the content type and body; on 200
return the body for downstream decoding. -/
def parseResponse (r : HttpResponse) : Except KError (Option Json) :=
  if r.statusCode ≠ 200 then
    if ¬ isJSON r.contentType then
      .error (AppError.toKError
        { HttpStatus := r.status, HttpStatusCode := r.statusCode,
          Message := "", Id := "", Code := "" })
    else
      let ae := unmarshalAppError r.body
      .error (AppError.toKError
        { ae with HttpStatus := r.status, HttpStatusCode := r.statusCode })
  else
    .ok r.body

/-- Model of an `http.Client`: the only observable property the code
establishes is whether a cookie jar was installed. -/
structure HttpClient where
  hasJar : Bool
deriving DecidableEq

/-- The `App` client configuration struct (app.go:74), with `time.Duration`
as a count of nanoseconds. -/
structure App where
  Domain : String
  User : String
  Password : String
  AppId : Nat
  Client : Option HttpClient
  Timeout : Nat
  token : String
  basicAuth : Bool
  basicAuthUser : String
  basicAuthPassword : String
deriving DecidableEq

/-- `DEFAULT_TIMEOUT = time.Second * 600` in nanoseconds (app.go:27). -/
def DEFAULT_TIMEOUT : Nat := 600 * 1000000000

/-- `SetBasicAuth` (app.go:89). -/
def SetBasicAuth (app : App) (user password : String) : App :=
  { app with basicAuth := true, basicAuthUser := user,
             basicAuthPassword := password }

/-- UTF-8 encoding of one code point, as a list of byte values. -/
def utf8Bytes (c : Nat) : List Nat :=
  if c < 128 then [c]
  else if c < 2048 then [192 + c / 64, 128 + c % 64]
  else if c < 65536 then [224 + c / 4096, 128 + c / 64 % 64, 128 + c % 64]
  else [240 + c / 262144, 128 + c / 4096 % 64, 128 + c / 64 % 64, 128 + c % 64]

/-- The bytes of a string, UTF-8 encoded. -/
def strBytes (s : String) : List Nat :=
  s.toList.foldr (fun c acc => utf8Bytes c.toNat ++ acc) []

/-- The standard base64 alphabet. -/
def base64Alphabet : List Char :=
  "ABCDEFGHIJKLMNOPQRSTUVWXYZabcdefghijklmnopqrstuvwxyz0123456789+/".toList

/-- One sextet to its base64 digit. -/
def b64digit (n : Nat) : Char := base64Alphabet.getD n 'A'

/-- `base64.StdEncoding.EncodeToString`: standard base64 with `=` padding. -/
def base64Encode : List Nat → String
  | [] => ""
  | [a] => String.mk [b64digit (a / 4), b64digit (a % 4 * 16), '=', '=']
  | [a, b] => String.mk [b64digit (a / 4), b64digit (a % 4 * 16 + b / 16),
      b64digit (b % 16 * 4), '=']
  | a :: b :: c :: rest =>
    String.mk [b64digit (a / 4), b64digit (a % 4 * 16 + b / 16),
      b64digit (b % 16 * 4 + c / 64), b64digit (c % 64)] ++ base64Encode rest

/-- The token `newRequest` computes on first use: base64 of `user:password`
(app.go:97). -/
def authToken (user password : String) : String :=
  base64Encode (strBytes (user ++ ":" ++ password))

/-- An outgoing HTTP request as `newRequest` builds it: method, URL, the two
headers it sets, the optional basic-auth credentials, and the (opaque) body. -/
structure Request where
  method : String
  url : String
  contentType : String
  authHeader : String
  basicAuthCreds : Option (String × String)
  reqBody : String
deriving DecidableEq

/-- Translation of `newRequest` (app.go:95): lazily compute and cache the
token when it is empty, build the `https://{domain}/k/v1/{api}.json` URL,
attach basic auth when enabled, and set the authorization and content-type
headers.  Returns the updated `App` (the token cache is a field mutation in
Go) alongside the request. -/
def newRequest (app : App) (method api reqBody : String) : App × Request :=
  let token :=
    if app.token.length = 0 then authToken app.User app.Password else app.token
  let app := { app with token := token }
  (app,
   { method := method,
     url := "https://" ++ app.Domain ++ "/k/v1/" ++ api ++ ".json",
     contentType := "application/json",
     authHeader := token,
     basicAuthCreds :=
       if app.basicAuth then some (app.basicAuthUser, app.basicAuthPassword)
       else none,
     reqBody := reqBody })

/-- The state mutation performed at the top of `do` (app.go:118): install a
client with a fresh cookie jar when `Client` is nil, and default `Timeout`
to `DEFAULT_TIMEOUT` when it is zero.  The race between the network call and
the timer is not part of the state model. -/
def doPrep (app : App) : App :=
  let app :=
    if app.Client = none then { app with Client := some { hasJar := true } }
    else app
  if app.Timeout = 0 then { app with Timeout := DEFAULT_TIMEOUT } else app

/-- The outcome of one request/execute interaction, supplied as an oracle:
`newRequest` fails, `do` fails (transport error or timeout), or a response
arrives. -/
inductive NetOutcome where
  | reqError (e : KError)
  | doError (e : KError)
  | resp (r : HttpResponse)

/-- How many network requests an operation reaching `do` with this outcome
executes: none when request construction already failed, one otherwise. -/
def netRequests (net : NetOutcome) : Nat :=
  match net with
  | .reqError _ => 0
  | _ => 1

/-- Decode of the `{"ids": [...]}` success body of `AddRecords`
(app.go:461): `json.Unmarshal` into a struct with an `ids` string-slice
field; a body that is not a JSON object fails, a missing or null `ids` key
leaves the slice nil, a non-string element fails. -/
def decodeIds (body : Option Json) : Option (List String) :=
  match body with
  | some (.obj fields) =>
    match lookupLast fields "ids" with
    | none => some []
    | some .null => some []
    | some (.arr elems) =>
      elems.foldr (fun e acc =>
        match e, acc with
        | .str s, some l => some (s :: l)
        | _, _ => none) (some [])
    | some _ => none
  | _ => none

/-- Translation of `AddRecords` (app.go:438), parameterized by the record
type (the record codec is an external collaborator).  Returns the number of
network requests executed together with the result.  More than 100 records
is rejected locally with `ErrTooMany` before any request is built. -/
def AddRecords (recs : List α) (net : NetOutcome) :
    Nat × Except KError (List String) :=
  if recs.length > 100 then (0, .error .tooMany)
  else
    match net with
    | .reqError e => (0, .error e)
    | .doError e => (1, .error e)
    | .resp r =>
      (1,
       match parseResponse r with
       | .error e => .error e
       | .ok body =>
         match decodeIds body with
         | none => .error .invalidResponse
         | some ids => .ok ids)

/-- Translation of `UpdateRecords` (app.go:494): the map from record ids to
records is a finite list of pairs; more than 100 entries is rejected locally
with `ErrTooMany` before any request is built. -/
def UpdateRecords (recs : List (Nat × α)) (net : NetOutcome) :
    Nat × Except KError Unit :=
  if recs.length > 100 then (0, .error .tooMany)
  else
    match net with
    | .reqError e => (0, .error e)
    | .doError e => (1, .error e)
    | .resp r =>
      (1,
       match parseResponse r with
       | .error e => .error e
       | .ok _ => .ok ())

/-- Translation of `DeleteRecords` (app.go:527): more than 100 ids is
rejected locally with `ErrTooMany` before any request is built. -/
def DeleteRecords (ids : List Nat) (net : NetOutcome) :
    Nat × Except KError Unit :=
  if ids.length > 100 then (0, .error .tooMany)
  else
    match net with
    | .reqError e => (0, .error e)
    | .doError e => (1, .error e)
    | .resp r =>
      (1,
       match parseResponse r with
       | .error e => .error e
       | .ok _ => .ok ())

/-- What one iteration of the `GetAllRecords` loop runs into, supplied as an
oracle per page: `newRequest` fails, `do` fails, `parseResponse` fails,
`DecodeRecords` fails, or a page of decoded records arrives. -/
inductive PageInput (α : Type) where
  | reqError (e : KError)
  | doError (e : KError)
  | respError (e : KError)
  | decodeError
  | page (rs : List α)

/-- The error a `PageInput` makes the loop return, if any: the three error
kinds propagate unchanged and a decode failure becomes `ErrInvalidResponse`
(app.go:282). -/
def PageInput.errorOf : PageInput α → Option KError
  | .reqError e => some e
  | .doError e => some e
  | .respError e => some e
  | .decodeError => some .invalidResponse
  | .page _ => none

/-- The query string `GetAllRecords` builds for an iteration that has already
accumulated `n` records (app.go:263): `"limit 100"` when nothing is
accumulated, otherwise `"limit 100 offset n"`. -/
def pageQuery (n : Nat) : String :=
  if n > 0 then "limit 100 offset " ++ toString n else "limit 100"

/-- The loop body of `GetAllRecords` (app.go:262), consuming one oracle entry
per iteration.  `recs` is the accumulated record list, `qs` the query strings
of the requests handed to the executor so far.  Returns `none` when the
oracle runs out (in Go the loop would keep issuing requests); otherwise the
trace of executed queries and the result.  A page is appended before the
short-page check, and a page of fewer than 100 records ends the loop. -/
def getAllLoop : List (PageInput α) → List α → List String →
    Option (List String × Except KError (List α))
  | [], _, _ => none
  | input :: rest, recs, qs =>
    let q := pageQuery recs.length
    match input with
    | .reqError e => some (qs, .error e)
    | .doError e => some (qs ++ [q], .error e)
    | .respError e => some (qs ++ [q], .error e)
    | .decodeError => some (qs ++ [q], .error .invalidResponse)
    | .page rs =>
      let recs := recs ++ rs
      if rs.length < 100 then some (qs ++ [q], .ok recs)
      else getAllLoop rest recs (qs ++ [q])

/-- Translation of `GetAllRecords` (app.go:255): run the loop from an empty
accumulator. -/
def GetAllRecords (inputs : List (PageInput α)) :
    Option (List String × Except KError (List α)) :=
  getAllLoop inputs [] []

/-- Downloaded file data (`FileData`, app.go:292): content type plus the
streamed contents (the pipe is modelled by the raw bytes it relays). -/
structure FileData where
  ContentType : String
  contents : String
deriving DecidableEq

/-- Translation of `Download` (app.go:300) from the executor outcome on: its
inline non-200 classification (app.go:313) is written out here exactly as the
source duplicates it — not by calling `parseResponse` — so that agreement
with `parseResponse` is a theorem, not a definition.  On 200 the response
body is relayed through the pipe. -/
def Download (net : NetOutcome) : Except KError FileData :=
  match net with
  | .reqError e => .error e
  | .doError e => .error e
  | .resp r =>
    if r.statusCode ≠ 200 then
      if ¬ isJSON r.contentType then
        .error (AppError.toKError
          { HttpStatus := r.status, HttpStatusCode := r.statusCode,
            Message := "", Id := "", Code := "" })
      else
        let ae := unmarshalAppError r.body
        .error (AppError.toKError
          { ae with HttpStatus := r.status, HttpStatusCode := r.statusCode })
    else
      .ok { ContentType := r.contentType, contents := r.raw }

/-- Field metadata (`FieldInfo`, app.go:550).  The Go field `Type` is named
`typ` here because `Type` is reserved in Lean; `interface{}` fields hold the
decoded JSON value or `none` for absent/null. -/
structure FieldInfo where
  Label : String
  Code : String
  typ : String
  NoLabel : Bool
  Required : Bool
  Unique : Bool
  MaxValue : Option Json
  MinValue : Option Json
  MaxLength : Option Json
  MinLength : Option Json
  Default : Option Json
  DefaultTime : Option Json
  Options : Option (List String)
  Expression : String
  Separator : Bool
  Medium : String
  Format : String

/-- Whether decoding the value at `k` into a `string` staging field succeeds:
absent and null are no-ops, a string decodes, anything else is a type
mismatch error. -/
def stringFieldOk (fields : List (String × Json)) (k : String) : Bool :=
  match lookupLast fields k with
  | none => true
  | some .null => true
  | some (.str _) => true
  | some _ => false

/-- Whether decoding the value at `k` into a `[]string` staging field
succeeds. -/
def stringListFieldOk (fields : List (String × Json)) (k : String) : Bool :=
  match lookupLast fields k with
  | none => true
  | some .null => true
  | some (.arr elems) =>
    elems.all fun e => match e with | .str _ => true | _ => false
  | some _ => false

/-- The string a `string` staging field holds after a successful decode:
the JSON string at `k`, or the zero value `""` when absent or null. -/
def stagedString (fields : List (String × Json)) (k : String) : String :=
  match lookupLast fields k with
  | some (.str s) => s
  | _ => ""

/-- The slice a `[]string` staging field holds after a successful decode:
nil when absent or null, otherwise the string elements. -/
def stagedStringList (fields : List (String × Json)) (k : String) :
    Option (List String) :=
  match lookupLast fields k with
  | some (.arr elems) =>
    some (elems.filterMap fun e => match e with | .str s => some s | _ => none)
  | _ => none

/-- The value an `interface{}` staging field holds: the decoded JSON value,
or nil for absent/null. -/
def stagedJson (fields : List (String × Json)) (k : String) : Option Json :=
  match lookupLast fields k with
  | none => none
  | some .null => none
  | some j => some j

/-- Whether `json.Unmarshal` into the staging struct of
`FieldInfo.UnmarshalJSON` (app.go:572) succeeds on this object: every
string-typed staging field and the `options` slice must decode. -/
def fieldInfoKeysOk (fields : List (String × Json)) : Bool :=
  stringFieldOk fields "label" && stringFieldOk fields "code" &&
  stringFieldOk fields "type" && stringFieldOk fields "noLabel" &&
  stringFieldOk fields "required" && stringFieldOk fields "unique" &&
  stringListFieldOk fields "options" && stringFieldOk fields "expression" &&
  stringFieldOk fields "digit" && stringFieldOk fields "protocol" &&
  stringFieldOk fields "format"

/-- Translation of `FieldInfo.UnmarshalJSON` (app.go:571): decode into the
staging struct with string-typed flag fields, then build the `FieldInfo`,
coercing each flag with an equality test against the string `"true"`
(app.go:597).  A JSON null leaves the staging struct at its zero value; a
payload that is not an object or null fails. -/
def UnmarshalFieldInfo (j : Json) : Option FieldInfo :=
  match j with
  | .null =>
    some { Label := "", Code := "", typ := "",
           NoLabel := false, Required := false, Unique := false,
           MaxValue := none, MinValue := none, MaxLength := none,
           MinLength := none, Default := none, DefaultTime := none,
           Options := none, Expression := "", Separator := false,
           Medium := "", Format := "" }
  | .obj fields =>
    if fieldInfoKeysOk fields then
      some { Label := stagedString fields "label",
             Code := stagedString fields "code",
             typ := stagedString fields "type",
             NoLabel := stagedString fields "noLabel" == "true",
             Required := stagedString fields "required" == "true",
             Unique := stagedString fields "unique" == "true",
             MaxValue := stagedJson fields "maxValue",
             MinValue := stagedJson fields "minValue",
             MaxLength := stagedJson fields "maxLength",
             MinLength := stagedJson fields "minLength",
             Default := stagedJson fields "defaultValue",
             DefaultTime := stagedJson fields "defaultExpression",
             Options := stagedStringList fields "options",
             Expression := stagedString fields "expression",
             Separator := stagedString fields "digit" == "true",
             Medium := stagedString fields "protocol",
             Format := stagedString fields "format" }
    else none
  | _ => none

theorem string_length_eq_zero_iff (s : String) : s.length = 0 ↔ s = "" := by
  cases s with
  | mk data =>
    cases data with
    | nil => exact iff_of_true rfl rfl
    | cons c cs =>
      refine iff_of_false (by simp [String.length]) ?_
      intro h
      exact List.noConfusion (congrArg String.data h)

/-- C4: a non-200 response whose declared content type is not JSON is
classified as an `AppError` carrying only the HTTP status string and code,
with empty `Message`, `Id` and `Code`. -/
theorem parseResponse_non200_nonJSON (r : HttpResponse)
    (hs : r.statusCode ≠ 200) (hj : isJSON r.contentType = false) :
    parseResponse r =
      .error (.appError r.status r.statusCode "" "" "") := by
  simp [parseResponse, hs, hj, AppError.toKError]

theorem parseResponse_non200_nonJSON_witness :
    (404 : Nat) ≠ 200 ∧ isJSON "text/html" = false ∧
    parseResponse
      { status := "404 Not Found", statusCode := 404,
        contentType := "text/html", body := none, raw := "" } =
      .error (.appError "404 Not Found" 404 "" "" "") :=
  ⟨by decide, by rfl,
   parseResponse_non200_nonJSON
     { status := "404 Not Found", statusCode := 404,
       contentType := "text/html", body := none, raw := "" }
     (by decide) (by rfl)⟩

/-- C5: a non-200 response with JSON content type and the body
`{"message":"bad field","id":"abc123","code":"GAIA_IL01"}` is classified as
an `AppError` with those three fields and the response's status/code; when
the JSON body fails to decode, the error still carries status/code and the
other fields stay at their defaults. -/
theorem parseResponse_non200_json (r1 r2 : HttpResponse)
    (hs1 : r1.statusCode ≠ 200) (hj1 : isJSON r1.contentType = true)
    (hb1 : r1.body = some (.obj
      [("message", .str "bad field"), ("id", .str "abc123"),
       ("code", .str "GAIA_IL01")]))
    (hs2 : r2.statusCode ≠ 200) (hj2 : isJSON r2.contentType = true)
    (hb2 : r2.body = none) :
    parseResponse r1 =
      .error (.appError r1.status r1.statusCode "bad field" "abc123" "GAIA_IL01") ∧
    parseResponse r2 =
      .error (.appError r2.status r2.statusCode "" "" "") := by
  have hm : unmarshalAppError (some (.obj
      [("message", .str "bad field"), ("id", .str "abc123"),
       ("code", .str "GAIA_IL01")])) =
      { HttpStatus := "", HttpStatusCode := 0, Message := "bad field",
        Id := "abc123", Code := "GAIA_IL01" } := by rfl
  constructor
  · simp [parseResponse, hs1, hj1, hb1, hm, AppError.toKError]
  · simp [parseResponse, hs2, hj2, hb2, unmarshalAppError, AppError.toKError]

theorem parseResponse_non200_json_witness :
    (400 : Nat) ≠ 200 ∧ isJSON "application/json" = true ∧
    parseResponse
      { status := "400 Bad Request", statusCode := 400,
        contentType := "application/json",
        body := some (.obj
          [("message", .str "bad field"), ("id", .str "abc123"),
           ("code", .str "GAIA_IL01")]), raw := "" } =
      .error (.appError "400 Bad Request" 400 "bad field" "abc123" "GAIA_IL01") ∧
    parseResponse
      { status := "400 Bad Request", statusCode := 400,
        contentType := "application/json", body := none, raw := "" } =
      .error (.appError "400 Bad Request" 400 "" "" "") := by
  have h := parseResponse_non200_json
    { status := "400 Bad Request", statusCode := 400,
      contentType := "application/json",
      body := some (.obj
        [("message", .str "bad field"), ("id", .str "abc123"),
         ("code", .str "GAIA_IL01")]), raw := "" }
    { status := "400 Bad Request", statusCode := 400,
      contentType := "application/json", body := none, raw := "" }
    (by decide) (by rfl) (by rfl) (by decide) (by rfl) (by rfl)
  exact ⟨by decide, by rfl, h.1, h.2⟩

/-- C6: on every non-200 response, `Download`'s inline classification and
`parseResponse` produce the same `AppError`, in both the JSON-body and the
non-JSON-body cases. -/
theorem Download_non200_matches_parseResponse (r : HttpResponse)
    (hs : r.statusCode ≠ 200) :
    ∃ ae : AppError,
      Download (.resp r) = .error ae.toKError ∧
      parseResponse r = .error ae.toKError := by
  by_cases hj : isJSON r.contentType
  · refine ⟨{ (unmarshalAppError r.body) with
              HttpStatus := r.status, HttpStatusCode := r.statusCode },
      by simp [Download, hs, hj], by simp [parseResponse, hs, hj]⟩
  · refine ⟨{ HttpStatus := r.status, HttpStatusCode := r.statusCode,
              Message := "", Id := "", Code := "" },
      by simp [Download, hs, hj], by simp [parseResponse, hs, hj]⟩

theorem Download_non200_matches_parseResponse_witness :
    (404 : Nat) ≠ 200 ∧
    (∃ ae : AppError,
      Download (.resp
        { status := "404 Not Found", statusCode := 404,
          contentType := "text/html", body := none, raw := "" }) =
        .error ae.toKError ∧
      parseResponse
        { status := "404 Not Found", statusCode := 404,
          contentType := "text/html", body := none, raw := "" } =
        .error ae.toKError) :=
  ⟨by decide,
   Download_non200_matches_parseResponse
     { status := "404 Not Found", statusCode := 404,
       contentType := "text/html", body := none, raw := "" }
     (by decide)⟩

/-- C10: executing a request mutates the `App` only as follows: a nil
`Client` is replaced by a client with a fresh cookie jar, a zero `Timeout`
is set to `DEFAULT_TIMEOUT` (600 seconds), and `newRequest` may set the
token; every other field is unchanged by both `doPrep` and `newRequest`. -/
theorem do_mutates_only_client_and_timeout (app : App)
    (method api reqBody : String) :
    (doPrep app).Client =
      (if app.Client = none then some { hasJar := true } else app.Client) ∧
    (doPrep app).Timeout =
      (if app.Timeout = 0 then DEFAULT_TIMEOUT else app.Timeout) ∧
    DEFAULT_TIMEOUT = 600 * 1000000000 ∧
    (doPrep app).Domain = app.Domain ∧
    (doPrep app).User = app.User ∧
    (doPrep app).Password = app.Password ∧
    (doPrep app).AppId = app.AppId ∧
    (doPrep app).token = app.token ∧
    (doPrep app).basicAuth = app.basicAuth ∧
    (doPrep app).basicAuthUser = app.basicAuthUser ∧
    (doPrep app).basicAuthPassword = app.basicAuthPassword ∧
    (newRequest app method api reqBody).1.Domain = app.Domain ∧
    (newRequest app method api reqBody).1.User = app.User ∧
    (newRequest app method api reqBody).1.Password = app.Password ∧
    (newRequest app method api reqBody).1.AppId = app.AppId ∧
    (newRequest app method api reqBody).1.Client = app.Client ∧
    (newRequest app method api reqBody).1.Timeout = app.Timeout ∧
    (newRequest app method api reqBody).1.basicAuth = app.basicAuth ∧
    (newRequest app method api reqBody).1.basicAuthUser = app.basicAuthUser ∧
    (newRequest app method api reqBody).1.basicAuthPassword =
      app.basicAuthPassword := by
  refine ⟨?_, ?_, rfl, ?_, ?_, ?_, ?_, ?_, ?_, ?_, ?_,
    rfl, rfl, rfl, rfl, rfl, rfl, rfl, rfl, rfl⟩ <;>
    simp only [doPrep] <;> split_ifs <;> simp_all

/-- C9: `newRequest` targets `https://{domain}/k/v1/{api}.json`, sets the
JSON content type and the custom authorization header; the token is computed
as base64 of `user:password` on the first call where it is empty (`app`),
and on an `App` whose token is already set (`app2`) it is reused unchanged,
even after the credentials are mutated; basic-auth credentials are attached
exactly when basic auth is enabled. -/
theorem newRequest_builds_request (app app2 : App)
    (method api reqBody u p : String)
    (h : app.token = "") (h2 : app2.token ≠ "") :
    (newRequest app method api reqBody).2.url =
      "https://" ++ app.Domain ++ "/k/v1/" ++ api ++ ".json" ∧
    (newRequest app method api reqBody).2.method = method ∧
    (newRequest app method api reqBody).2.contentType = "application/json" ∧
    (newRequest app method api reqBody).1.token =
      authToken app.User app.Password ∧
    (newRequest app method api reqBody).2.authHeader =
      (newRequest app method api reqBody).1.token ∧
    (newRequest app method api reqBody).2.basicAuthCreds =
      (if app.basicAuth then some (app.basicAuthUser, app.basicAuthPassword)
       else none) ∧
    authToken app.User app.Password =
      base64Encode (strBytes (app.User ++ ":" ++ app.Password)) ∧
    (newRequest app2 method api reqBody).1.token = app2.token ∧
    (newRequest app2 method api reqBody).2.authHeader = app2.token ∧
    (newRequest { app2 with User := u, Password := p }
        method api reqBody).2.authHeader = app2.token := by
  have hl : app.token.length = 0 := by rw [h]; rfl
  have hl2 : ¬ app2.token.length = 0 := fun hh =>
    h2 ((string_length_eq_zero_iff app2.token).mp hh)
  refine ⟨?_, rfl, rfl, ?_, rfl, rfl, rfl, ?_, ?_, ?_⟩ <;>
    simp [newRequest, hl, hl2]

theorem newRequest_builds_request_witness :
    ({ Domain := "d", User := "user", Password := "pass", AppId := 1,
       Client := none, Timeout := 0, token := "", basicAuth := true,
       basicAuthUser := "bu", basicAuthPassword := "bp" } : App).token = "" ∧
    ({ Domain := "d", User := "user", Password := "pass", AppId := 1,
       Client := none, Timeout := 0, token := "tok", basicAuth := false,
       basicAuthUser := "", basicAuthPassword := "" } : App).token ≠ "" ∧
    (newRequest
      { Domain := "d", User := "user", Password := "pass", AppId := 1,
        Client := none, Timeout := 0, token := "", basicAuth := true,
        basicAuthUser := "bu", basicAuthPassword := "bp" }
      "GET" "record" "").2.url = "https://d/k/v1/record.json" ∧
    (newRequest
      { Domain := "d", User := "user", Password := "pass", AppId := 1,
        Client := none, Timeout := 0, token := "", basicAuth := true,
        basicAuthUser := "bu", basicAuthPassword := "bp" }
      "GET" "record" "").1.token = "dXNlcjpwYXNz" ∧
    (newRequest
      { Domain := "d", User := "user", Password := "pass", AppId := 1,
        Client := none, Timeout := 0, token := "tok", basicAuth := false,
        basicAuthUser := "", basicAuthPassword := "" }
      "GET" "record" "").2.authHeader = "tok" := by
  have h := newRequest_builds_request
    { Domain := "d", User := "user", Password := "pass", AppId := 1,
      Client := none, Timeout := 0, token := "", basicAuth := true,
      basicAuthUser := "bu", basicAuthPassword := "bp" }
    { Domain := "d", User := "user", Password := "pass", AppId := 1,
      Client := none, Timeout := 0, token := "tok", basicAuth := false,
      basicAuthUser := "", basicAuthPassword := "" }
    "GET" "record" "" "u2" "p2" rfl (by decide)
  refine ⟨rfl, by decide, ?_, ?_, h.2.2.2.2.2.2.2.2.1⟩
  · rw [h.1]; rfl
  · rw [h.2.2.2.1]; rfl

/-- C2: `AddRecords`, `UpdateRecords` and `DeleteRecords` reject a
collection of more than 100 entries locally with `ErrTooMany` and execute
zero network requests; a collection of at most 100 entries passes the guard,
so exactly the requests of the underlying interaction are executed. -/
theorem batch_guard_tooMany (recsA : List α) (upsA : List (Nat × α))
    (idsA : List Nat) (recsB : List α) (upsB : List (Nat × α))
    (idsB : List Nat) (net : NetOutcome)
    (hA : recsA.length > 100) (hUA : upsA.length > 100)
    (hIA : idsA.length > 100) (hB : recsB.length ≤ 100)
    (hUB : upsB.length ≤ 100) (hIB : idsB.length ≤ 100) :
    AddRecords recsA net = (0, .error .tooMany) ∧
    UpdateRecords upsA net = (0, .error .tooMany) ∧
    DeleteRecords idsA net = (0, .error .tooMany) ∧
    (AddRecords recsB net).1 = netRequests net ∧
    (UpdateRecords upsB net).1 = netRequests net ∧
    (DeleteRecords idsB net).1 = netRequests net := by
  refine ⟨by simp [AddRecords, hA], by simp [UpdateRecords, hUA],
    by simp [DeleteRecords, hIA], ?_, ?_, ?_⟩ <;>
    cases net <;>
      simp [AddRecords, UpdateRecords, DeleteRecords, netRequests,
        Nat.not_lt.mpr hB, Nat.not_lt.mpr hUB, Nat.not_lt.mpr hIB]

theorem batch_guard_tooMany_witness :
    (List.replicate 101 (0 : Nat)).length > 100 ∧
    (List.replicate 101 ((0 : Nat), (0 : Nat))).length > 100 ∧
    ([] : List Nat).length ≤ 100 ∧
    AddRecords (List.replicate 101 (0 : Nat)) (.doError .timeout) =
      (0, .error .tooMany) ∧
    UpdateRecords (List.replicate 101 ((0 : Nat), (0 : Nat)))
      (.doError .timeout) = (0, .error .tooMany) ∧
    DeleteRecords (List.replicate 101 0) (.doError .timeout) =
      (0, .error .tooMany) ∧
    (AddRecords ([] : List Nat) (.doError .timeout)).1 =
      netRequests (.doError .timeout) := by
  have h := batch_guard_tooMany (List.replicate 101 (0 : Nat))
    (List.replicate 101 ((0 : Nat), (0 : Nat))) (List.replicate 101 0)
    ([] : List Nat) ([] : List (Nat × Nat)) ([] : List Nat)
    (.doError .timeout)
    (by simp) (by simp) (by simp) (by simp) (by simp) (by simp)
  exact ⟨by simp, by simp, by simp, h.1, h.2.1, h.2.2.1, h.2.2.2.1⟩

/-- C1: when the service answers with pages of 100, 100 and 37 records,
`GetAllRecords` returns their concatenation (237 records, in server order),
the executed queries are `limit 100` (offset omitted), `limit 100 offset
100` and `limit 100 offset 200`, and the loop stops at the short page
without consuming further interactions (`rest` is unused); a page of zero
records likewise ends the loop. -/
theorem getAllRecords_three_pages (p1 p2 p3 : List α)
    (rest : List (PageInput α))
    (h1 : p1.length = 100) (h2 : p2.length = 100) (h3 : p3.length = 37) :
    GetAllRecords
      (PageInput.page p1 :: PageInput.page p2 :: PageInput.page p3 :: rest) =
      some (["limit 100", "limit 100 offset 100", "limit 100 offset 200"],
        .ok (p1 ++ p2 ++ p3)) ∧
    (p1 ++ p2 ++ p3).length = 237 ∧
    GetAllRecords (PageInput.page p1 :: PageInput.page [] :: rest) =
      some (["limit 100", "limit 100 offset 100"], .ok p1) := by
  have q1 : pageQuery 0 = "limit 100" := by rfl
  have q2 : pageQuery 100 = "limit 100 offset 100" := by rfl
  have q3 : pageQuery 200 = "limit 100 offset 200" := by rfl
  refine ⟨?_, by simp [h1, h2, h3], ?_⟩
  · simp [GetAllRecords, getAllLoop, h1, h2, h3, q1, q2, q3,
      List.length_append]
  · simp [GetAllRecords, getAllLoop, h1, q1, q2]

theorem getAllRecords_three_pages_witness :
    (List.replicate 100 (1 : Nat)).length = 100 ∧
    (List.replicate 100 (2 : Nat)).length = 100 ∧
    (List.replicate 37 (3 : Nat)).length = 37 ∧
    (GetAllRecords
      (PageInput.page (List.replicate 100 (1 : Nat)) ::
       PageInput.page (List.replicate 100 2) ::
       PageInput.page (List.replicate 37 3) :: []) =
      some (["limit 100", "limit 100 offset 100", "limit 100 offset 200"],
        .ok (List.replicate 100 1 ++ List.replicate 100 2 ++
          List.replicate 37 3)) ∧
    (List.replicate 100 (1 : Nat) ++ List.replicate 100 2 ++
      List.replicate 37 3).length = 237 ∧
    GetAllRecords
      (PageInput.page (List.replicate 100 (1 : Nat)) ::
       PageInput.page [] :: []) =
      some (["limit 100", "limit 100 offset 100"],
        .ok (List.replicate 100 1))) :=
  ⟨by simp, by simp, by simp,
   getAllRecords_three_pages (List.replicate 100 1) (List.replicate 100 2)
     (List.replicate 37 3) [] (by simp) (by simp) (by simp)⟩

theorem getAllLoop_error_aux (pre : List (List α))
    (hpre : ∀ p ∈ pre, p.length = 100) (i : PageInput α) (e : KError)
    (hi : i.errorOf = some e) (rest : List (PageInput α))
    (recs : List α) (qs : List String) :
    (getAllLoop (pre.map PageInput.page ++ i :: rest) recs qs).map
      Prod.snd = some (.error e) := by
  induction pre generalizing recs qs with
  | nil =>
    cases i <;> simp_all [getAllLoop, PageInput.errorOf]
  | cons p pre ih =>
    have hp : p.length = 100 := hpre p (by simp)
    have hrest : ∀ q ∈ pre, q.length = 100 := fun q hq =>
      hpre q (List.mem_cons_of_mem p hq)
    simp only [List.map_cons, List.cons_append, getAllLoop, hp]
    simp only [show ¬ (100 < 100) from by decide, if_false]
    exact ih hrest (recs ++ p) (qs ++ [pageQuery recs.length])

/-- C7: any per-page failure in `GetAllRecords` — request construction,
executor, non-200 classification, or page decode (mapped to
`ErrInvalidResponse`) — aborts the aggregation at that page and returns that
error, with no record list, no matter how many full pages were already
fetched. -/
theorem getAllRecords_aborts_on_error (pre : List (List α))
    (hpre : ∀ p ∈ pre, p.length = 100) (i : PageInput α) (e : KError)
    (hi : i.errorOf = some e) (rest : List (PageInput α)) :
    (GetAllRecords (pre.map PageInput.page ++ i :: rest)).map Prod.snd =
      some (.error e) :=
  getAllLoop_error_aux pre hpre i e hi rest [] []

theorem getAllRecords_aborts_on_error_witness :
    (∀ p ∈ [List.replicate 100 (0 : Nat)], p.length = 100) ∧
    (PageInput.decodeError : PageInput Nat).errorOf =
      some KError.invalidResponse ∧
    (GetAllRecords ([List.replicate 100 (0 : Nat)].map PageInput.page ++
        PageInput.decodeError :: [])).map Prod.snd =
      some (.error .invalidResponse) :=
  ⟨by simp, by rfl,
   getAllRecords_aborts_on_error [List.replicate 100 (0 : Nat)]
     (by simp) PageInput.decodeError KError.invalidResponse (by rfl) []⟩

/-- C8: a successful `FieldInfo` decode coerces the string-typed staging
attributes `noLabel`, `required`, `unique` and `digit` to booleans by
comparison with the string `"true"` (so `"false"`, any other string, and an
absent key all give `false`), and copies every non-coerced field through
unchanged. -/
theorem fieldInfo_unmarshal_coerces (fields : List (String × Json))
    (fi : FieldInfo) (h : UnmarshalFieldInfo (.obj fields) = some fi) :
    fi.NoLabel = (stagedString fields "noLabel" == "true") ∧
    fi.Required = (stagedString fields "required" == "true") ∧
    fi.Unique = (stagedString fields "unique" == "true") ∧
    fi.Separator = (stagedString fields "digit" == "true") ∧
    fi.Label = stagedString fields "label" ∧
    fi.Code = stagedString fields "code" ∧
    fi.typ = stagedString fields "type" ∧
    fi.Expression = stagedString fields "expression" ∧
    fi.Medium = stagedString fields "protocol" ∧
    fi.Format = stagedString fields "format" ∧
    fi.MaxValue = stagedJson fields "maxValue" ∧
    fi.MinValue = stagedJson fields "minValue" ∧
    fi.MaxLength = stagedJson fields "maxLength" ∧
    fi.MinLength = stagedJson fields "minLength" ∧
    fi.Default = stagedJson fields "defaultValue" ∧
    fi.DefaultTime = stagedJson fields "defaultExpression" ∧
    fi.Options = stagedStringList fields "options" := by
  simp only [UnmarshalFieldInfo] at h
  by_cases hk : fieldInfoKeysOk fields = true
  · rw [if_pos hk] at h
    simp only [Option.some.injEq] at h
    subst h
    exact ⟨rfl, rfl, rfl, rfl, rfl, rfl, rfl, rfl, rfl, rfl, rfl, rfl,
      rfl, rfl, rfl, rfl, rfl⟩
  · rw [if_neg hk] at h
    exact absurd h (by simp)

theorem fieldInfo_unmarshal_coerces_witness :
    UnmarshalFieldInfo (.obj
      [("label", .str "L"), ("required", .str "true"),
       ("noLabel", .str "false"), ("unique", .str "whatever")]) =
      some { Label := "L", Code := "", typ := "",
             NoLabel := false, Required := true, Unique := false,
             MaxValue := none, MinValue := none, MaxLength := none,
             MinLength := none, Default := none, DefaultTime := none,
             Options := none, Expression := "", Separator := false,
             Medium := "", Format := "" } ∧
    ({ Label := "L", Code := "", typ := "",
       NoLabel := false, Required := true, Unique := false,
       MaxValue := none, MinValue := none, MaxLength := none,
       MinLength := none, Default := none, DefaultTime := none,
       Options := none, Expression := "", Separator := false,
       Medium := "", Format := "" } : FieldInfo).Required =
      (stagedString
        [("label", .str "L"), ("required", .str "true"),
         ("noLabel", .str "false"), ("unique", .str "whatever")]
        "required" == "true") :=
  ⟨by rfl,
   (fieldInfo_unmarshal_coerces
     [("label", .str "L"), ("required", .str "true"),
      ("noLabel", .str "false"), ("unique", .str "whatever")]
     _ (by rfl)).2.1⟩

end Kintone
